import Mathlib

/-!
Verification of the Lingobabe front-end (chat interface and welcome survey)
against its specification. The TypeScript components are shallowly embedded:
React state becomes explicit record passing, effects (HTTP requests, token
manager calls, navigation, timers) become explicit values returned by the
embedded handlers, and `localStorage` becomes an association list.
-/

namespace Lingobabe

/-- Values held in browser localStorage. Plain strings cover keys written with
string values; `accessObj` models the JSON-encoded character-access record
(whose `completed` and `hasAccess` fields this code reads and writes, with
`rest` standing for any further fields the external writer put there). -/
inductive StorageVal where
  | str (s : String)
  | accessObj (completed : Bool) (hasAccessField : Bool) (rest : String)
deriving DecidableEq, Repr

/-- localStorage as an association list from keys to stored values. -/
abbrev Storage := List (String × StorageVal)

/-- localStorage.getItem. -/
def Storage.get (st : Storage) (k : String) : Option StorageVal :=
  (List.find? (fun p => p.1 == k) st).map Prod.snd

/-- localStorage.setItem. -/
def Storage.set (st : Storage) (k : String) (v : StorageVal) : Storage :=
  (k, v) :: List.filter (fun p => p.1 != k) st

/-- localStorage.removeItem. -/
def Storage.remove (st : Storage) (k : String) : Storage :=
  List.filter (fun p => p.1 != k) st

/-- Whitespace characters String.prototype.trim strips (the ones that can
occur in this UI text). -/
def isWsChar (c : Char) : Bool :=
  c == ' ' || c == '\t' || c == '\n' || c == '\r'

/-- String.prototype.trim: drop whitespace from both ends. -/
def jsTrim (s : String) : String :=
  String.mk (((s.data.dropWhile isWsChar).reverse.dropWhile isWsChar).reverse)

/-- String.prototype.toLowerCase. -/
def jsToLower (s : String) : String :=
  String.mk (s.data.map Char.toLower)

/-- JavaScript truthiness for optional strings: `undefined` and the empty
string are falsy, so `a || b` skips both. -/
def truthy (o : Option String) : Option String :=
  match o with
  | some s => if s = "" then none else some s
  | none => none

/-- The localized content of one chat message (type MessageContent). -/
structure MessageContent where
  english : Option String := none
  chinese : Option String := none
  pinyin : Option String := none
  japanese : Option String := none
  romaji : Option String := none
  korean : Option String := none
  romanized : Option String := none
  spanish : Option String := none
  video : Option String := none
deriving DecidableEq, Repr

/-- One selectable response option of a scene, as consumed by handleSend:
localized text fields, an optional numeric points value, and an optional
scripted assistant response. -/
structure ChatOption where
  english : Option String := none
  chinese : Option String := none
  pinyin : Option String := none
  japanese : Option String := none
  romaji : Option String := none
  korean : Option String := none
  romanized : Option String := none
  spanish : Option String := none
  video : Option String := none
  points : Option Int := none
  response : Option MessageContent := none
deriving DecidableEq, Repr

/-- The primary text of an option:
`opt.chinese || opt.japanese || opt.korean || opt.spanish`. -/
def ChatOption.primaryText (opt : ChatOption) : Option String :=
  ((truthy opt.chinese).orElse fun _ =>
    (truthy opt.japanese).orElse fun _ =>
      (truthy opt.korean).orElse fun _ => truthy opt.spanish)

/-- The primary text of a scripted response:
`response.chinese || response.japanese || response.korean || response.spanish`. -/
def MessageContent.primaryText (c : MessageContent) : Option String :=
  ((truthy c.chinese).orElse fun _ =>
    (truthy c.japanese).orElse fun _ =>
      (truthy c.korean).orElse fun _ => truthy c.spanish)

/-- A chat message as kept by the chat store: a role plus content. -/
structure ChatMessage where
  role : String
  content : MessageContent
deriving DecidableEq, Repr

/-- A character record from the characters table: the fields this component
reads (name, language, and the per-scene option lists keyed by scene number). -/
structure Character where
  name : String
  language : String
  scenes : List (Nat × List ChatOption)
deriving DecidableEq, Repr

/-- `character?.scenes[currentScene]?.options || []`. -/
def Character.sceneOptions (c : Character) (n : Nat) : List ChatOption :=
  ((List.find? (fun p => p.1 == n) c.scenes).map Prod.snd).getD []

/-- The combined component state of ChatInterface: the chat store slice
(selectedCharacter, messages, happiness, currentScene) and the local
useState hooks. -/
structure ChatState where
  selectedCharacter : Option String := none
  messages : List ChatMessage := []
  happiness : List (String × Int) := []
  currentScene : Nat := 1
  input : String := ""
  audioPlaying : Bool := false
  isTransitioning : Bool := false
  showEndPopup : Bool := false
  showOptions : Bool := false
  currentVideo : String := ""
  error : Option String := none
  showError : Bool := false
  hasAccess : Bool := false
  isCheckingAccess : Bool := true
deriving DecidableEq, Repr

/-- The external world the component talks to: the injected
`window.tokenManager` (its initialized flag, the outcome of checkAccess, and
whether markChatCompleted returns normally), the connected wallet address,
the characters table, and whether a TTS fetch succeeds. -/
structure Env where
  tokenManagerInitialized : Bool
  address : Option String
  characterOf : String → Option Character
  checkAccessResult : String → Except String Bool
  markChatCompletedOk : Bool
  ttsOk : Bool

/-- The `character` binding: selectedCharacter resolved through
isValidCharacterId and the characters table. -/
def resolveCharacter (env : Env) (st : ChatState) : Option Character :=
  match st.selectedCharacter with
  | some cid => env.characterOf cid
  | none => none

/-- Storage key `character_access_<address lowercased>_<characterId>`. -/
def accessKey (addr cid : String) : String :=
  "character_access_" ++ jsToLower addr ++ "_" ++ cid

/-- Storage key `scene_<characterId>_<address lowercased>`. -/
def sceneKey (addr cid : String) : String :=
  "scene_" ++ cid ++ "_" ++ jsToLower addr

/-- Storage key `lingobabe_happiness_<address lowercased>_<characterId>`. -/
def happinessKey (addr cid : String) : String :=
  "lingobabe_happiness_" ++ jsToLower addr ++ "_" ++ cid

/-- The three top-level views ChatInterface can return. -/
inductive RenderView where
  | verifying
  | accessRequired
  | chat
deriving DecidableEq, Repr

/-- The top-level conditional rendering of ChatInterface: the
Verifying access screen while isCheckingAccess, the access-control screen
when access is absent and a character is selected, and otherwise the chat
card (header, messages, options, input). -/
def render (st : ChatState) : RenderView :=
  if st.isCheckingAccess then .verifying
  else if !st.hasAccess && st.selectedCharacter.isSome then .accessRequired
  else .chat

/-- Actions deferred through setTimeout. -/
inductive TimerAction where
  | clearError
  | setSceneAndEndTransition (n : Nat)
deriving DecidableEq, Repr

/-- A pending setTimeout callback with its delay in milliseconds. -/
structure Timer where
  delayMs : Nat
  action : TimerAction
deriving DecidableEq, Repr

/-- Firing one deferred callback: the 5000 ms banner clear resets showError
and error; the 1000 ms scene callback calls setScene and ends the
transition. -/
def applyTimerAction (st : ChatState) : TimerAction → ChatState
  | .clearError => { st with showError := false, error := none }
  | .setSceneAndEndTransition n => { st with currentScene := n, isTransitioning := false }

/-- Firing all pending timers in order. -/
def settleTimers (st : ChatState) (ts : List Timer) : ChatState :=
  List.foldl (fun s t => applyTimerAction s t.action) st ts

/-- showErrorMessage: set the error text, show the banner, and schedule a
5000 ms timeout that hides the banner and clears the text. -/
def showErrorMessageS (st : ChatState) (message : String) : ChatState × List Timer :=
  ({ st with error := some message, showError := true },
   [{ delayMs := 5000, action := .clearError }])

/-- A request to the TTS endpoint: JSON.stringify of an object whose only
fields are text and language. -/
structure TtsRequest where
  url : String
  method : String
  text : String
  language : String
deriving DecidableEq, Repr

/-- Result of a playAudio call: the updated state, the TTS requests issued,
and any timers scheduled by an error banner. -/
structure AudioResult where
  state : ChatState
  requests : List TtsRequest
  timers : List Timer
deriving Repr

/-- playAudio: return immediately when the text is empty or audio already
plays; otherwise set audioPlaying and POST `{ text, language }` to /api/tts,
with the language `character?.language || 'chinese'`. On any fetch or
playback failure audioPlaying is reset and an error banner is shown. -/
def playAudio (env : Env) (st : ChatState) (text : String) : AudioResult :=
  if text = "" || st.audioPlaying then { state := st, requests := [], timers := [] }
  else
    let lang :=
      match truthy ((resolveCharacter env st).map Character.language) with
      | some l => l
      | none => "chinese"
    let req : TtsRequest := { url := "/api/tts", method := "POST", text := text, language := lang }
    let st1 := { st with audioPlaying := true }
    if env.ttsOk then
      { state := st1, requests := [req], timers := [] }
    else
      let st2 := { st1 with audioPlaying := false }
      let (st3, ts) := showErrorMessageS st2 "Failed to play audio. Please try again."
      { state := st3, requests := [req], timers := ts }

/-- The checkAccess effect: when the token manager is uninitialized or the
address or selected character is missing, clear isCheckingAccess and default
hasAccess to false; otherwise ask the token manager, adopt its answer
(removing the stale access key when it denies), and on a thrown error record
the message and default hasAccess to false, always clearing isCheckingAccess
in the finally block. -/
def runCheckAccess (env : Env) (st : ChatState) (storage : Storage) : ChatState × Storage :=
  match st.selectedCharacter, env.address with
  | some cid, some addr =>
    if env.tokenManagerInitialized then
      match env.checkAccessResult cid with
      | .ok b =>
        let st1 := { st with isCheckingAccess := false, hasAccess := b }
        if b then (st1, storage)
        else (st1, storage.remove (accessKey addr cid))
      | .error msg =>
        let shown := match truthy (some msg) with
          | some m => m
          | none => "Failed to verify access status"
        ({ st with isCheckingAccess := false, hasAccess := false, error := some shown },
         storage)
    else
      ({ st with isCheckingAccess := false, hasAccess := false }, storage)
  | _, _ => ({ st with isCheckingAccess := false, hasAccess := false }, storage)

/-- The occurrences that can change the access flag after mount: a run of the
checkAccess effect, the onAccessGranted callback of CharacterAccessControl,
and the accessStatusChanged and chatCompleted window events. -/
inductive AccessEvent where
  | checkAccessRun
  | accessGranted
  | accessStatusChanged (characterId : String) (granted : Bool)
  | chatCompletedEvent (characterId : String)
deriving DecidableEq, Repr

/-- The handler each access event runs in ChatInterface. -/
def stepEvent (env : Env) (p : ChatState × Storage) (e : AccessEvent) : ChatState × Storage :=
  match e with
  | .checkAccessRun => runCheckAccess env p.1 p.2
  | .accessGranted => ({ p.1 with hasAccess := true }, p.2)
  | .accessStatusChanged cid b =>
    if p.1.selectedCharacter = some cid then ({ p.1 with hasAccess := b }, p.2)
    else p
  | .chatCompletedEvent cid =>
    if p.1.selectedCharacter = some cid then
      ({ p.1 with hasAccess := false },
       match env.address with
       | some addr => p.2.remove (accessKey addr cid)
       | none => p.2)
    else p

/-- Running a sequence of access events from a starting state. -/
def runEvents (env : Env) (st : ChatState) (storage : Storage)
    (es : List AccessEvent) : ChatState × Storage :=
  List.foldl (stepEvent env) (st, storage) es

/-- An event grants access to character cid when it is a checkAccess run the
token manager answers positively (with wallet and initialization present), the
onAccessGranted callback, or an accessStatusChanged event for cid carrying
hasAccess = true. -/
def grantsAccess (env : Env) (cid : String) : AccessEvent → Bool
  | .checkAccessRun =>
    env.tokenManagerInitialized && env.address.isSome &&
      (match env.checkAccessResult cid with
       | .ok b => b
       | .error _ => false)
  | .accessGranted => true
  | .accessStatusChanged cid' b => cid' == cid && b
  | .chatCompletedEvent _ => false

/-- Modelled from the spec: the chat store action `addMessage` (implemented in
`@/store/chatStore`, which is not among the sources) appends a message to the
conversation list; the data model section describes messages as role plus
localized text fields. -/
def addMessage (st : ChatState) (role : String) (content : MessageContent) : ChatState :=
  { st with messages := st.messages ++ [{ role := role, content := content }] }

/-- Happiness of a character in the store map. -/
def happinessOf (h : List (String × Int)) (cid : String) : Option Int :=
  (List.find? (fun q => q.1 == cid) h).map Prod.snd

/-- `happiness[selectedCharacter] || 50`: JavaScript truthiness makes both a
missing entry and the value 0 fall back to 50. -/
def jsHappinessDefault (o : Option Int) : Int :=
  match o with
  | some v => if v = 0 then 50 else v
  | none => 50

/-- Modelled from the spec: the chat store action `updateHappiness`
(implemented in `@/store/chatStore`, which is not among the sources) updates
the displayed happiness of the character; per the spec sentence that selecting
an option updates displayed happiness, it is modelled with the same
computation handleSend mirrors into localStorage. -/
def storeUpdateHappiness (h : List (String × Int)) (cid : String) (p : Int) :
    List (String × Int) :=
  (cid, min 100 (max 0 (jsHappinessDefault (happinessOf h cid) + p))) ::
    List.filter (fun q => q.1 != cid) h

/-- Result of a handleSend call: updated component state and storage, TTS
requests issued along the way, the markChatCompleted calls made on the token
manager (by character id), and the scheduled timers. -/
structure SendResult where
  state : ChatState
  storage : Storage
  ttsRequests : List TtsRequest
  completions : List String
  timers : List Timer
deriving Repr

/-- A handleSend early return through showErrorMessage. -/
def sendError (st : ChatState) (storage : Storage) (msg : String) : SendResult :=
  let (st1, ts) := showErrorMessageS st msg
  { state := st1, storage := storage, ttsRequests := [], completions := [], timers := ts }

/-- The user-message content handleSend builds from the selected option. -/
def optionContent (opt : ChatOption) : MessageContent :=
  { english := opt.english, chinese := opt.chinese, pinyin := opt.pinyin,
    japanese := opt.japanese, romaji := opt.romaji, korean := opt.korean,
    romanized := opt.romanized, spanish := opt.spanish, video := opt.video }

/-- The happiness block of handleSend: when the option carries a numeric
points value, dispatch the store update and mirror the clamped new value into
localStorage, reading the pre-update happiness with its truthy 50 default. -/
def happinessStage (addr cid : String) (opt : ChatOption) (st : ChatState)
    (storage : Storage) : ChatState × Storage :=
  match opt.points with
  | some p =>
    let cur := jsHappinessDefault (happinessOf st.happiness cid)
    let newH := min 100 (max 0 (cur + p))
    ({ st with happiness := storeUpdateHappiness st.happiness cid p },
     storage.set (happinessKey addr cid) (.str (toString newH)))
  | none => (st, storage)

/-- The scripted-response block of handleSend: append the assistant message,
adopt its video when present, and play its primary text aloud. -/
def responseStage (env : Env) (opt : ChatOption) (st : ChatState) :
    ChatState × List TtsRequest × List Timer :=
  match opt.response with
  | some resp =>
    let stA := addMessage st "assistant" resp
    let stB :=
      match truthy resp.video with
      | some v => { stA with currentVideo := v }
      | none => stA
    match resp.primaryText with
    | some t =>
      let ar := playAudio env stB t
      (ar.state, ar.requests, ar.timers)
    | none => (stB, ([] : List TtsRequest), ([] : List Timer))
  | none => (st, ([] : List TtsRequest), ([] : List Timer))

/-- The completion update of the stored access record at scene end: parse the
stored JSON, set completed and revoke hasAccess, and write it back; a parse
failure is caught and leaves the record alone. -/
def completeAccessStorage (addr cid : String) (storage : Storage) : Storage :=
  match storage.get (accessKey addr cid) with
  | some (.accessObj _ _ rest) => storage.set (accessKey addr cid) (.accessObj true false rest)
  | some (.str _) => storage
  | none => storage

/-- The scene-progression block of handleSend, plus the closing setInput and
setShowOptions calls. Scene 5 and up ends the chat: when the token manager is
initialized, the stored access record is marked completed, markChatCompleted
is called, and - when that call returns - the access flag is dropped; then
the end popup is shown and the scene key removed. Below scene 5 the next
scene number is persisted and setScene is scheduled after 1000 ms. -/
def sceneStage (env : Env) (addr cid : String) (sceneAtSend : Nat) (st : ChatState)
    (storage : Storage) (reqs : List TtsRequest) (ts : List Timer) : SendResult :=
  if sceneAtSend >= 5 then
    let (stC, storageC, comps) :=
      if env.tokenManagerInitialized then
        let storageB := completeAccessStorage addr cid storage
        if env.markChatCompletedOk then
          ({ st with hasAccess := false }, storageB, [cid])
        else (st, storageB, [cid])
      else (st, storage, ([] : List String))
    let stD := { stC with showEndPopup := true }
    let storageD := storageC.remove (sceneKey addr cid)
    { state := { stD with input := "", showOptions := false },
      storage := storageD, ttsRequests := reqs, completions := comps, timers := ts }
  else
    let stC := { st with isTransitioning := true }
    let storageC := storage.set (sceneKey addr cid) (.str (toString (sceneAtSend + 1)))
    { state := { stC with input := "", showOptions := false },
      storage := storageC, ttsRequests := reqs, completions := [],
      timers := ts ++
        [{ delayMs := 1000, action := .setSceneAndEndTransition (sceneAtSend + 1) }] }

/-- handleSend, the send-button handler: validate the input and connection,
find the current-scene option whose primary text equals the trimmed input,
append the user message, then run the happiness, response and scene blocks in
order. -/
def handleSend (env : Env) (st : ChatState) (storage : Storage) : SendResult :=
  match st.selectedCharacter, env.address, resolveCharacter env st with
  | some cid, some addr, some ch =>
    if jsTrim st.input == "" || st.isTransitioning then
      sendError st storage "Invalid input or connection state"
    else
      let trimmed := jsTrim st.input
      match List.find? (fun opt => opt.primaryText == some trimmed)
          (ch.sceneOptions st.currentScene) with
      | none => sendError st storage "Please select a valid response option"
      | some opt =>
        let st1 := addMessage st "user" (optionContent opt)
        let hs := happinessStage addr cid opt st1 storage
        let rs := responseStage env opt hs.1
        sceneStage env addr cid st.currentScene rs.1 hs.2 rs.2.1 rs.2.2
  | _, _, _ => sendError st storage "Invalid input or connection state"

/-- Modelled from the spec: the accumulated survey answers held by
SurveyContext (its implementation is not among the sources); the survey pages
among the sources read and write referralSource, motivation and dailyGoal. -/
structure SurveyData where
  referralSource : Option String := none
  motivation : Option String := none
  dailyGoal : Option String := none
deriving DecidableEq, Repr

/-- Values the survey pages put into localStorage. -/
inductive SurveyStoredVal where
  | str (s : String)
  | surveyObj (d : SurveyData)
deriving DecidableEq, Repr

/-- Observable actions of the survey pages, in program order. A post action
is a fetch with the given url and method whose JSON body is the given
survey-answers object. -/
inductive SurveyAction where
  | storageWrite (key : String) (value : SurveyStoredVal)
  | post (url : String) (method : String) (body : SurveyData)
  | navigate (path : String)
  | navigateAfter (delayMs : Nat) (path : String)
deriving DecidableEq, Repr

/-- The component state of DailyGoalPage. -/
structure SurveyState where
  surveyData : SurveyData
  isSubmitting : Bool := false
  showLoadingScreen : Bool := false
  errorText : Option String := none
deriving DecidableEq, Repr

/-- The backend as seen by the survey submit handler: whether the POST
resolves at all, and with which ok status (which the handler never reads). -/
structure SurveyEnv where
  responseOk : Bool
  submitThrows : Bool
deriving DecidableEq, Repr

/-- handleSubmit of DailyGoalPage: return at once without a selected goal or
while already submitting; otherwise raise the submitting and loading flags,
back the answers up to lingobabe_survey_data, POST the surveyData object to
/api/submit-survey, and - whether the fetch resolves (its ok status is never
read) or throws - set lingobabe_survey_completed to true and navigate to the
success page (after a 1500 ms animation delay on the resolve path,
immediately on the throw path). -/
def handleSubmit (env : SurveyEnv) (s : SurveyState) : List SurveyAction × SurveyState :=
  match truthy s.surveyData.dailyGoal with
  | none => ([], s)
  | some _ =>
    if s.isSubmitting then ([], s)
    else
      let s1 := { s with isSubmitting := true, showLoadingScreen := true }
      let pre := [SurveyAction.storageWrite "lingobabe_survey_data" (.surveyObj s.surveyData),
                  SurveyAction.post "/api/submit-survey" "POST" s.surveyData]
      if env.submitThrows then
        (pre ++ [SurveyAction.storageWrite "lingobabe_survey_completed" (.str "true"),
                 SurveyAction.navigate "/welcome-survey/success"], s1)
      else
        (pre ++ [SurveyAction.storageWrite "lingobabe_survey_completed" (.str "true"),
                 SurveyAction.navigateAfter 1500 "/welcome-survey/success"], s1)

/-- The disabled attribute of the CONTINUE button on DailyGoalPage:
`!surveyData.dailyGoal || isSubmitting`. -/
def submitButtonDisabled (s : SurveyState) : Bool :=
  (truthy s.surveyData.dailyGoal).isNone || s.isSubmitting

/-- Whether a survey action navigates (at once or after a delay) to the given
path. -/
def navigatesTo (path : String) : SurveyAction → Bool
  | .navigate p => p == path
  | .navigateAfter _ p => p == path
  | _ => false

/-- The mounting effect of SuccessPage: it re-asserts the completion flag and
schedules the 2000 ms auto-advance to the benefits page. -/
def successPageEffect : List SurveyAction :=
  [SurveyAction.storageWrite "lingobabe_survey_completed" (.str "true"),
   SurveyAction.navigateAfter 2000 "/welcome-survey/benefits"]

/-- The stored happiness value exactly as claim C3 words it: the previous
happiness, defaulting to 50, plus the points, clamped to 0..100. Kept beside
the source computation to compare the two. -/
def claimStoredHappiness (prev : Option Int) (p : Int) : Int :=
  min 100 (max 0 (prev.getD 50 + p))

/-- A concrete scene option used to instantiate the theorems below. -/
def sampleOption : ChatOption :=
  { chinese := some "ni hao", english := some "hello", points := some 10,
    response := some { chinese := some "hen hao", video := some "v.mp4" } }

/-- A concrete character carrying the sample option in scenes 1 and 5. -/
def sampleCharacter : Character :=
  { name := "Mei", language := "chinese",
    scenes := [(1, [sampleOption]), (5, [sampleOption])] }

/-- A concrete environment: initialized token manager, connected wallet, one
character, positive access answer, working TTS. -/
def sampleEnv : Env :=
  { tokenManagerInitialized := true, address := some "0xAB",
    characterOf := fun cid => if cid = "mei" then some sampleCharacter else none,
    checkAccessResult := fun _ => Except.ok true,
    markChatCompletedOk := true, ttsOk := true }

/-- A concrete component state inside the chat with the sample option typed
into the input field. -/
def sampleState : ChatState :=
  { selectedCharacter := some "mei", currentScene := 1,
    input := "ni hao", isCheckingAccess := false, hasAccess := true }

/-- The sample state before access has been granted. -/
def sampleNoAccessState : ChatState :=
  { sampleState with hasAccess := false }

/-- A concrete survey state with a selected daily goal. -/
def sampleSurveyState : SurveyState :=
  { surveyData :=
      { referralSource := some "TIKTOK", motivation := some "PREPARE FOR TRAVEL",
        dailyGoal := some "5 MIN/DAY" } }

/-- A concrete survey backend whose POST resolves. -/
def sampleSurveyEnv : SurveyEnv :=
  { responseOk := true, submitThrows := false }

theorem storage_get_set_self (st : Storage) (k : String) (v : StorageVal) :
    (st.set k v).get k = some v := by
  simp [Storage.set, Storage.get, List.find?]

theorem storage_get_set_ne (st : Storage) {k k' : String} (v : StorageVal) (h : k ≠ k') :
    (st.set k v).get k' = st.get k' := by
  unfold Storage.set Storage.get
  rw [List.find?]
  have hk : ((k, v).1 == k') = false := by simp [h]
  rw [hk]
  induction st with
  | nil => simp
  | cons p ps ih =>
    by_cases hp : p.1 == k'
    · have hpk : (p.1 != k) = true := by
        simp only [bne_iff_ne, ne_eq]
        intro he
        rw [he] at hp
        simp at hp
        exact h hp
      simp [List.filter, hpk, List.find?, hp]
    · by_cases hpk : (p.1 != k) = true
      · simp only [List.filter, hpk]
        rw [List.find?, List.find?]
        simp only [hp]
        exact ih
      · simp only [List.filter, hpk]
        rw [List.find?]
        simp only [hp]
        exact ih

theorem storage_get_remove_self (st : Storage) (k : String) :
    (st.remove k).get k = none := by
  unfold Storage.remove Storage.get
  induction st with
  | nil => simp
  | cons p ps ih =>
    by_cases hpk : (p.1 != k) = true
    · have hp : (p.1 == k) = false := by
        simp only [bne_iff_ne, ne_eq] at hpk
        simp [hpk]
      simp only [List.filter, hpk]
      rw [List.find?]
      simp only [hp]
      exact ih
    · simp only [List.filter, hpk]
      exact ih

theorem storage_get_remove_ne (st : Storage) {k k' : String} (h : k ≠ k') :
    (st.remove k).get k' = st.get k' := by
  unfold Storage.remove Storage.get
  induction st with
  | nil => simp
  | cons p ps ih =>
    by_cases hp : p.1 == k'
    · have hpk : (p.1 != k) = true := by
        simp only [bne_iff_ne, ne_eq]
        intro he
        rw [he] at hp
        simp at hp
        exact h hp
      simp [List.filter, hpk, List.find?, hp]
    · by_cases hpk : (p.1 != k) = true
      · simp only [List.filter, hpk]
        rw [List.find?, List.find?]
        simp only [hp]
        exact ih
      · simp only [List.filter, hpk]
        rw [List.find?]
        simp only [hp]
        exact ih

theorem ne_of_head_ne {s t : String} (h : s.data.head? ≠ t.data.head?) : s ≠ t := by
  intro he
  exact h (by rw [he])

theorem happinessKey_ne_sceneKey (a c a' c' : String) : happinessKey a c ≠ sceneKey a' c' := by
  apply ne_of_head_ne
  simp [happinessKey, sceneKey, String.data]

theorem accessKey_ne_happinessKey (a c a' c' : String) : accessKey a c ≠ happinessKey a' c' := by
  apply ne_of_head_ne
  simp [accessKey, happinessKey, String.data]

theorem accessKey_ne_sceneKey (a c a' c' : String) : accessKey a c ≠ sceneKey a' c' := by
  apply ne_of_head_ne
  simp [accessKey, sceneKey, String.data]

theorem sceneKey_ne_happinessKey (a c a' c' : String) : sceneKey a c ≠ happinessKey a' c' := by
  apply ne_of_head_ne
  simp [sceneKey, happinessKey, String.data]

theorem playAudio_timer_actions (env : Env) (st : ChatState) (text : String) :
    ∀ t ∈ (playAudio env st text).timers, t.action = TimerAction.clearError := by
  unfold playAudio
  split
  · simp
  · split <;> split <;> simp [showErrorMessageS]

theorem settle_clearError_currentScene (st : ChatState) (ts : List Timer)
    (h : ∀ t ∈ ts, t.action = TimerAction.clearError) :
    (settleTimers st ts).currentScene = st.currentScene := by
  induction ts generalizing st with
  | nil => rfl
  | cons t ts ih =>
    have ht := h t (List.mem_cons_self t ts)
    rw [settleTimers, List.foldl_cons, ht]
    have := ih (applyTimerAction st TimerAction.clearError) (fun t' ht' => h t' (List.mem_cons_of_mem _ ht'))
    rw [settleTimers] at this
    rw [this]
    rfl

theorem settle_append_setScene (st : ChatState) (ts : List Timer) (d n : Nat) :
    (settleTimers st (ts ++ [{ delayMs := d, action := TimerAction.setSceneAndEndTransition n }])).currentScene = n := by
  rw [settleTimers, List.foldl_append]
  rfl

theorem runCheckAccess_selChar (env : Env) (st : ChatState) (storage : Storage) :
    (runCheckAccess env st storage).1.selectedCharacter = st.selectedCharacter := by
  unfold runCheckAccess
  split
  · split
    · split
      · split <;> rfl
      · rfl
    · rfl
  · rfl

theorem runCheckAccess_isChecking (env : Env) (st : ChatState) (storage : Storage) :
    (runCheckAccess env st storage).1.isCheckingAccess = false := by
  unfold runCheckAccess
  split
  · split
    · split
      · split <;> rfl
      · rfl
    · rfl
  · rfl

theorem stepEvent_selChar (env : Env) (p : ChatState × Storage) (e : AccessEvent) :
    (stepEvent env p e).1.selectedCharacter = p.1.selectedCharacter := by
  cases e with
  | checkAccessRun =>
    simp only [stepEvent]
    exact runCheckAccess_selChar env p.1 p.2
  | accessGranted => simp only [stepEvent]
  | accessStatusChanged cid b =>
    simp only [stepEvent]
    split <;> rfl
  | chatCompletedEvent cid =>
    simp only [stepEvent]
    split
    · rfl
    · rfl

theorem step_no_grant (env : Env) (cid : String) (p : ChatState × Storage) (e : AccessEvent)
    (hs : p.1.selectedCharacter = some cid) (ha : p.1.hasAccess = false)
    (hg : grantsAccess env cid e = false) :
    (stepEvent env p e).1.hasAccess = false := by
  cases e with
  | checkAccessRun =>
    simp only [stepEvent]
    unfold runCheckAccess
    rw [hs]
    cases haddr : env.address with
    | none => rfl
    | some addr =>
      by_cases hinit : env.tokenManagerInitialized
      · simp only [hinit, if_true]
        cases hres : env.checkAccessResult cid with
        | ok b =>
          cases b with
          | false => rfl
          | true =>
            exfalso
            unfold grantsAccess at hg
            rw [hres, hinit, haddr] at hg
            simp at hg
        | error msg => rfl
      · simp only [hinit]
        rfl
  | accessGranted =>
    exfalso
    unfold grantsAccess at hg
    simp at hg
  | accessStatusChanged cid2 b =>
    simp only [stepEvent]
    split
    · next hmatch =>
      rw [hs] at hmatch
      injection hmatch with h2
      subst h2
      unfold grantsAccess at hg
      simp at hg
      simp [hg]
    · exact ha
  | chatCompletedEvent cid2 =>
    simp only [stepEvent]
    split
    · rfl
    · exact ha

theorem runEvents_no_grant (env : Env) (cid : String) (es : List AccessEvent) :
    ∀ (st : ChatState) (storage : Storage),
      st.selectedCharacter = some cid → st.hasAccess = false →
      (∀ e ∈ es, grantsAccess env cid e = false) →
      (runEvents env st storage es).1.hasAccess = false ∧
      (runEvents env st storage es).1.selectedCharacter = some cid := by
  induction es with
  | nil =>
    intro st storage hs ha _
    exact ⟨ha, hs⟩
  | cons e es ih =>
    intro st storage hs ha h
    have hg := h e (List.mem_cons_self e es)
    have hstep := step_no_grant env cid (st, storage) e hs ha hg
    have hsel2 : (stepEvent env (st, storage) e).1.selectedCharacter = some cid := by
      rw [stepEvent_selChar]
      exact hs
    have hrec := ih (stepEvent env (st, storage) e).1 (stepEvent env (st, storage) e).2 hsel2 hstep
      (fun e2 he2 => h e2 (List.mem_cons_of_mem _ he2))
    rw [runEvents, List.foldl_cons]
    rw [runEvents] at hrec
    exact hrec

/-- C1: with a character selected, the chat card is never rendered while the
check runs or access is absent, and the chat view is reachable from a
no-access state only after an access-granting occurrence. -/
theorem chat_view_gated_by_access (env : Env) (cid : String) (st0 : ChatState)
    (storage : Storage) (es : List AccessEvent)
    (hsel : st0.selectedCharacter = some cid) (ha0 : st0.hasAccess = false) :
    (∀ st : ChatState, st.isCheckingAccess = true → render st = RenderView.verifying) ∧
    (∀ st : ChatState, st.isCheckingAccess = false → st.hasAccess = false →
      st.selectedCharacter.isSome = true → render st = RenderView.accessRequired) ∧
    (render (runEvents env st0 storage es).1 = RenderView.chat →
      ∃ e ∈ es, grantsAccess env cid e = true) := by
  refine ⟨?_, ?_, ?_⟩
  · intro st h
    simp [render, h]
  · intro st h1 h2 h3
    simp [render, h1, h2, h3]
  · intro hchat
    by_contra hno
    push_neg at hno
    have hall : ∀ e ∈ es, grantsAccess env cid e = false := by
      intro e he
      have h2 := hno e he
      simpa using h2
    obtain ⟨hacc, hselr⟩ := runEvents_no_grant env cid es st0 storage hsel ha0 hall
    rw [render] at hchat
    by_cases hc : (runEvents env st0 storage es).1.isCheckingAccess
    · simp [hc] at hchat
    · simp [hc, hacc, hselr] at hchat

/-- Witness for C1 at a concrete run of one access-granting event. -/
theorem chat_view_gated_by_access_witness :
    sampleNoAccessState.selectedCharacter = some "mei" ∧
    sampleNoAccessState.hasAccess = false ∧
    ((∀ st : ChatState, st.isCheckingAccess = true → render st = RenderView.verifying) ∧
     (∀ st : ChatState, st.isCheckingAccess = false → st.hasAccess = false →
       st.selectedCharacter.isSome = true → render st = RenderView.accessRequired) ∧
     (render (runEvents sampleEnv sampleNoAccessState [] [AccessEvent.accessGranted]).1 =
        RenderView.chat →
       ∃ e ∈ [AccessEvent.accessGranted], grantsAccess sampleEnv "mei" e = true)) :=
  ⟨rfl, rfl,
   chat_view_gated_by_access sampleEnv "mei" sampleNoAccessState [] [AccessEvent.accessGranted]
     rfl rfl⟩

/-- C4: every failure of the access check (uninitialized token manager,
missing wallet address, missing selected character, or a throwing
tokenManager.checkAccess) defaults hasAccess to false and clears the
access-checking flag. -/
theorem checkAccess_failure_defaults_no_access (env : Env) (st : ChatState) (storage : Storage)
    (hfail : env.tokenManagerInitialized = false ∨ env.address = none ∨
      st.selectedCharacter = none ∨
      (∃ cid msg, st.selectedCharacter = some cid ∧
        env.checkAccessResult cid = Except.error msg)) :
    (runCheckAccess env st storage).1.hasAccess = false ∧
    (runCheckAccess env st storage).1.isCheckingAccess = false := by
  refine ⟨?_, runCheckAccess_isChecking env st storage⟩
  unfold runCheckAccess
  cases hsel : st.selectedCharacter with
  | none => rfl
  | some cid =>
    cases haddr : env.address with
    | none => rfl
    | some addr =>
      by_cases hinit : env.tokenManagerInitialized = true
      · rcases hfail with h | h | h | hth
        · rw [hinit] at h
          cases h
        · rw [haddr] at h
          cases h
        · rw [hsel] at h
          cases h
        · obtain ⟨cid2, msg, hc, he⟩ := hth
          rw [hsel] at hc
          injection hc with hcc
          subst hcc
          simp only [hinit, if_true, he]
      · simp only [hinit, if_false]
        rfl

/-- Witness for C4 with an uninitialized token manager. -/
theorem checkAccess_failure_defaults_no_access_witness :
    (({ sampleEnv with tokenManagerInitialized := false } : Env).tokenManagerInitialized = false ∨
      ({ sampleEnv with tokenManagerInitialized := false } : Env).address = none ∨
      sampleState.selectedCharacter = none ∨
      (∃ cid msg, sampleState.selectedCharacter = some cid ∧
        ({ sampleEnv with tokenManagerInitialized := false } : Env).checkAccessResult cid =
          Except.error msg)) ∧
    (runCheckAccess { sampleEnv with tokenManagerInitialized := false } sampleState []).1.hasAccess
      = false ∧
    (runCheckAccess { sampleEnv with tokenManagerInitialized := false }
      sampleState []).1.isCheckingAccess = false :=
  ⟨Or.inl rfl,
   checkAccess_failure_defaults_no_access { sampleEnv with tokenManagerInitialized := false }
     sampleState [] (Or.inl rfl)⟩

/-- C7: showErrorMessage sets the banner text and visibility and schedules a
single 5000 ms timeout whose firing clears both. -/
theorem error_banner_transient (st : ChatState) (message : String) :
    (showErrorMessageS st message).1.error = some message ∧
    (showErrorMessageS st message).1.showError = true ∧
    (showErrorMessageS st message).2 =
      [{ delayMs := 5000, action := TimerAction.clearError }] ∧
    (settleTimers (showErrorMessageS st message).1
      (showErrorMessageS st message).2).showError = false ∧
    (settleTimers (showErrorMessageS st message).1
      (showErrorMessageS st message).2).error = none := by
  exact ⟨rfl, rfl, rfl, rfl, rfl⟩

/-- C8: every TTS request playAudio issues is a POST to /api/tts whose body
holds exactly text (non-empty) and language (the character language or the
chinese default). -/
theorem tts_request_shape (env : Env) (st : ChatState) (text : String) (r : TtsRequest)
    (hr : r ∈ (playAudio env st text).requests) :
    r.url = "/api/tts" ∧ r.method = "POST" ∧ r.text = text ∧ text ≠ "" ∧
    r.language = (match truthy ((resolveCharacter env st).map Character.language) with
      | some l => l
      | none => "chinese") := by
  unfold playAudio at hr
  by_cases hguard : (decide (text = "") || st.audioPlaying) = true
  · rw [if_pos hguard] at hr
    simp at hr
  · rw [if_neg hguard] at hr
    have htext : text ≠ "" := by
      intro he
      apply hguard
      simp [he]
    cases hl : truthy ((resolveCharacter env st).map Character.language) with
    | some l =>
      rw [hl] at hr
      by_cases hok : env.ttsOk = true
      · rw [if_pos hok] at hr
        simp at hr
        subst hr
        exact ⟨rfl, rfl, rfl, htext, rfl⟩
      · rw [if_neg hok] at hr
        simp [showErrorMessageS] at hr
        subst hr
        exact ⟨rfl, rfl, rfl, htext, rfl⟩
    | none =>
      rw [hl] at hr
      by_cases hok : env.ttsOk = true
      · rw [if_pos hok] at hr
        simp at hr
        subst hr
        exact ⟨rfl, rfl, rfl, htext, rfl⟩
      · rw [if_neg hok] at hr
        simp [showErrorMessageS] at hr
        subst hr
        exact ⟨rfl, rfl, rfl, htext, rfl⟩

/-- Witness for C8 at a concrete request. -/
theorem tts_request_shape_witness :
    ({ url := "/api/tts", method := "POST", text := "hen hao", language := "chinese" } :
        TtsRequest) ∈
      (playAudio sampleEnv sampleState "hen hao").requests ∧
    (({ url := "/api/tts", method := "POST", text := "hen hao", language := "chinese" } :
        TtsRequest).url = "/api/tts" ∧
     ({ url := "/api/tts", method := "POST", text := "hen hao", language := "chinese" } :
        TtsRequest).method = "POST" ∧
     ({ url := "/api/tts", method := "POST", text := "hen hao", language := "chinese" } :
        TtsRequest).text = "hen hao" ∧
     ("hen hao" : String) ≠ "" ∧
     ({ url := "/api/tts", method := "POST", text := "hen hao", language := "chinese" } :
        TtsRequest).language =
       (match truthy ((resolveCharacter sampleEnv sampleState).map Character.language) with
        | some l => l
        | none => "chinese")) :=
  ⟨by decide,
   tts_request_shape sampleEnv sampleState "hen hao"
     { url := "/api/tts", method := "POST", text := "hen hao", language := "chinese" }
     (by decide)⟩

/-- C5: with a goal selected, survey submission always completes - whatever
the POST outcome, the completion flag is written and the user is navigated to
the success page, which re-asserts the flag on mount. -/
theorem survey_submit_always_completes (env : SurveyEnv) (s : SurveyState) (g : String)
    (hgoal : truthy s.surveyData.dailyGoal = some g) (hsub : s.isSubmitting = false) :
    SurveyAction.storageWrite "lingobabe_survey_completed" (SurveyStoredVal.str "true") ∈
      (handleSubmit env s).1 ∧
    (∃ a ∈ (handleSubmit env s).1, navigatesTo "/welcome-survey/success" a = true) ∧
    SurveyAction.storageWrite "lingobabe_survey_completed" (SurveyStoredVal.str "true") ∈
      successPageEffect := by
  unfold handleSubmit
  rw [hgoal, hsub]
  by_cases ht : env.submitThrows = true
  · rw [if_neg (by simp), if_pos ht]
    refine ⟨by simp, ⟨SurveyAction.navigate "/welcome-survey/success", by simp, rfl⟩,
      by simp [successPageEffect]⟩
  · rw [if_neg (by simp), if_neg ht]
    refine ⟨by simp, ⟨SurveyAction.navigateAfter 1500 "/welcome-survey/success", by simp, rfl⟩,
      by simp [successPageEffect]⟩

/-- Witness for C5 at the concrete survey state. -/
theorem survey_submit_always_completes_witness :
    truthy sampleSurveyState.surveyData.dailyGoal = some "5 MIN/DAY" ∧
    sampleSurveyState.isSubmitting = false ∧
    (SurveyAction.storageWrite "lingobabe_survey_completed" (SurveyStoredVal.str "true") ∈
      (handleSubmit sampleSurveyEnv sampleSurveyState).1 ∧
    (∃ a ∈ (handleSubmit sampleSurveyEnv sampleSurveyState).1,
      navigatesTo "/welcome-survey/success" a = true) ∧
    SurveyAction.storageWrite "lingobabe_survey_completed" (SurveyStoredVal.str "true") ∈
      successPageEffect) :=
  ⟨by decide, rfl,
   survey_submit_always_completes sampleSurveyEnv sampleSurveyState "5 MIN/DAY" (by decide) rfl⟩

/-- C6: without a selected goal (or while a submission is in flight) the
CONTINUE button is disabled and the submit handler performs no action and
changes no state. -/
theorem no_goal_keeps_submit_disabled (env : SurveyEnv) (s : SurveyState)
    (h : truthy s.surveyData.dailyGoal = none ∨ s.isSubmitting = true) :
    submitButtonDisabled s = true ∧ handleSubmit env s = ([], s) := by
  rcases h with h | h
  · refine ⟨by simp [submitButtonDisabled, h], ?_⟩
    unfold handleSubmit
    rw [h]
  · refine ⟨by simp [submitButtonDisabled, h], ?_⟩
    unfold handleSubmit
    cases hg : truthy s.surveyData.dailyGoal with
    | none => rfl
    | some g =>
      rw [h]
      simp

/-- Witness for C6 with no goal selected. -/
theorem no_goal_keeps_submit_disabled_witness :
    (truthy ({ surveyData := {} } : SurveyState).surveyData.dailyGoal = none ∨
      ({ surveyData := {} } : SurveyState).isSubmitting = true) ∧
    submitButtonDisabled { surveyData := {} } = true ∧
    handleSubmit sampleSurveyEnv { surveyData := {} } = ([], { surveyData := {} }) :=
  ⟨Or.inl rfl,
   no_goal_keeps_submit_disabled sampleSurveyEnv { surveyData := {} } (Or.inl rfl)⟩

/-- C9: every survey submission request is a POST to /api/submit-survey whose
body is exactly the surveyData object, and the same object is written to
lingobabe_survey_data before the request (positions 0 and 1 of the action
sequence). -/
theorem survey_request_is_survey_data (env : SurveyEnv) (s : SurveyState) (g : String)
    (hgoal : truthy s.surveyData.dailyGoal = some g) (hsub : s.isSubmitting = false) :
    (∀ u m b, SurveyAction.post u m b ∈ (handleSubmit env s).1 →
      u = "/api/submit-survey" ∧ m = "POST" ∧ b = s.surveyData) ∧
    (handleSubmit env s).1.get? 0 =
      some (SurveyAction.storageWrite "lingobabe_survey_data"
        (SurveyStoredVal.surveyObj s.surveyData)) ∧
    (handleSubmit env s).1.get? 1 =
      some (SurveyAction.post "/api/submit-survey" "POST" s.surveyData) := by
  unfold handleSubmit
  rw [hgoal, hsub]
  by_cases ht : env.submitThrows = true
  · rw [if_neg (by simp), if_pos ht]
    refine ⟨?_, rfl, rfl⟩
    intro u m b hb
    simp at hb
    exact ⟨hb.1, hb.2.1, hb.2.2⟩
  · rw [if_neg (by simp), if_neg ht]
    refine ⟨?_, rfl, rfl⟩
    intro u m b hb
    simp at hb
    exact ⟨hb.1, hb.2.1, hb.2.2⟩

/-- Witness for C9 at the concrete survey state. -/
theorem survey_request_is_survey_data_witness :
    truthy sampleSurveyState.surveyData.dailyGoal = some "5 MIN/DAY" ∧
    sampleSurveyState.isSubmitting = false ∧
    ((∀ u m b, SurveyAction.post u m b ∈ (handleSubmit sampleSurveyEnv sampleSurveyState).1 →
      u = "/api/submit-survey" ∧ m = "POST" ∧ b = sampleSurveyState.surveyData) ∧
    (handleSubmit sampleSurveyEnv sampleSurveyState).1.get? 0 =
      some (SurveyAction.storageWrite "lingobabe_survey_data"
        (SurveyStoredVal.surveyObj sampleSurveyState.surveyData)) ∧
    (handleSubmit sampleSurveyEnv sampleSurveyState).1.get? 1 =
      some (SurveyAction.post "/api/submit-survey" "POST" sampleSurveyState.surveyData)) :=
  ⟨by decide, rfl,
   survey_request_is_survey_data sampleSurveyEnv sampleSurveyState "5 MIN/DAY" (by decide) rfl⟩

theorem playAudio_state_fields (env : Env) (st : ChatState) (text : String) :
    (playAudio env st text).state.happiness = st.happiness ∧
    (playAudio env st text).state.currentScene = st.currentScene ∧
    (playAudio env st text).state.hasAccess = st.hasAccess := by
  unfold playAudio
  split
  · exact ⟨rfl, rfl, rfl⟩
  · split <;> split <;> simp [showErrorMessageS]

theorem responseStage_state_fields (env : Env) (opt : ChatOption) (st : ChatState) :
    (responseStage env opt st).1.happiness = st.happiness ∧
    (responseStage env opt st).1.currentScene = st.currentScene ∧
    (responseStage env opt st).1.hasAccess = st.hasAccess := by
  unfold responseStage
  split
  · split
    · split
      · exact playAudio_state_fields env _ _
      · exact ⟨rfl, rfl, rfl⟩
    · split
      · exact playAudio_state_fields env _ _
      · exact ⟨rfl, rfl, rfl⟩
  · exact ⟨rfl, rfl, rfl⟩

theorem responseStage_timer_actions (env : Env) (opt : ChatOption) (st : ChatState) :
    ∀ t ∈ (responseStage env opt st).2.2, t.action = TimerAction.clearError := by
  unfold responseStage
  split
  · split
    · split
      · exact playAudio_timer_actions env _ _
      · simp
    · split
      · exact playAudio_timer_actions env _ _
      · simp
  · simp

theorem happinessStage_state_fields (addr cid : String) (opt : ChatOption) (st : ChatState)
    (storage : Storage) :
    (happinessStage addr cid opt st storage).1.currentScene = st.currentScene ∧
    (happinessStage addr cid opt st storage).1.hasAccess = st.hasAccess := by
  unfold happinessStage
  split <;> exact ⟨rfl, rfl⟩

theorem happinessStage_points (addr cid : String) (opt : ChatOption) (st : ChatState)
    (storage : Storage) (p : Int) (hpts : opt.points = some p) :
    (happinessStage addr cid opt st storage).1.happiness =
      storeUpdateHappiness st.happiness cid p ∧
    (happinessStage addr cid opt st storage).2 =
      storage.set (happinessKey addr cid)
        (StorageVal.str
          (toString (min 100 (max 0 (jsHappinessDefault (happinessOf st.happiness cid) + p))))) := by
  unfold happinessStage
  rw [hpts]
  exact ⟨rfl, rfl⟩

theorem happinessOf_cons_self (cid : String) (v : Int) (t : List (String × Int)) :
    happinessOf ((cid, v) :: t) cid = some v := by
  unfold happinessOf
  rw [List.find?]
  simp

theorem happinessOf_storeUpdate (h : List (String × Int)) (cid : String) (p : Int) :
    happinessOf (storeUpdateHappiness h cid p) cid =
      some (min 100 (max 0 (jsHappinessDefault (happinessOf h cid) + p))) := by
  rw [storeUpdateHappiness]
  exact happinessOf_cons_self cid _ _

theorem completeAccessStorage_get_happiness (addr cid a c : String) (storage : Storage) :
    (completeAccessStorage addr cid storage).get (happinessKey a c) =
      storage.get (happinessKey a c) := by
  unfold completeAccessStorage
  split
  · exact storage_get_set_ne storage _ (accessKey_ne_happinessKey addr cid a c)
  · rfl
  · rfl

theorem sceneStage_low (env : Env) (addr cid : String) (n : Nat) (st : ChatState)
    (storage : Storage) (reqs : List TtsRequest) (ts : List Timer) (h : n < 5) :
    sceneStage env addr cid n st storage reqs ts =
      { state := { st with isTransitioning := true, input := "", showOptions := false },
        storage := storage.set (sceneKey addr cid) (StorageVal.str (toString (n + 1))),
        ttsRequests := reqs, completions := [],
        timers := ts ++
          [{ delayMs := 1000, action := TimerAction.setSceneAndEndTransition (n + 1) }] } := by
  unfold sceneStage
  rw [if_neg (by omega)]

theorem sceneStage_high (env : Env) (addr cid : String) (n : Nat) (st : ChatState)
    (storage : Storage) (reqs : List TtsRequest) (ts : List Timer) (h : n ≥ 5) :
    (sceneStage env addr cid n st storage reqs ts).state.currentScene = st.currentScene ∧
    (sceneStage env addr cid n st storage reqs ts).state.showEndPopup = true ∧
    (sceneStage env addr cid n st storage reqs ts).timers = ts ∧
    (sceneStage env addr cid n st storage reqs ts).completions =
      (if env.tokenManagerInitialized then [cid] else []) ∧
    (env.tokenManagerInitialized = true → env.markChatCompletedOk = true →
      (sceneStage env addr cid n st storage reqs ts).state.hasAccess = false) ∧
    (sceneStage env addr cid n st storage reqs ts).storage.get (sceneKey addr cid) = none ∧
    (∀ a c, (sceneStage env addr cid n st storage reqs ts).storage.get (happinessKey a c) =
      storage.get (happinessKey a c)) ∧
    (sceneStage env addr cid n st storage reqs ts).state.happiness = st.happiness := by
  unfold sceneStage
  rw [if_pos (by omega : n ≥ 5)]
  by_cases hinit : env.tokenManagerInitialized = true
  · by_cases hmc : env.markChatCompletedOk = true
    · rw [if_pos hinit, if_pos hinit, if_pos hmc]
      refine ⟨rfl, rfl, rfl, rfl, fun _ _ => rfl, storage_get_remove_self _ _, ?_, rfl⟩
      intro a c
      rw [storage_get_remove_ne _ (sceneKey_ne_happinessKey addr cid a c)]
      exact completeAccessStorage_get_happiness addr cid a c storage
    · rw [if_pos hinit, if_pos hinit, if_neg hmc]
      refine ⟨rfl, rfl, rfl, rfl, fun _ hmc2 => absurd hmc2 hmc, storage_get_remove_self _ _, ?_, rfl⟩
      intro a c
      rw [storage_get_remove_ne _ (sceneKey_ne_happinessKey addr cid a c)]
      exact completeAccessStorage_get_happiness addr cid a c storage
  · rw [if_neg hinit, if_neg hinit]
    refine ⟨rfl, rfl, rfl, rfl, fun hinit2 _ => absurd hinit2 hinit, storage_get_remove_self _ _, ?_, rfl⟩
    intro a c
    exact storage_get_remove_ne _ (sceneKey_ne_happinessKey addr cid a c)

theorem handleSend_success (env : Env) (st : ChatState) (storage : Storage)
    (cid addr : String) (ch : Character) (opt : ChatOption)
    (hsel : st.selectedCharacter = some cid) (haddr : env.address = some addr)
    (hch : env.characterOf cid = some ch)
    (htrim : jsTrim st.input ≠ "") (htrans : st.isTransitioning = false)
    (hfind : List.find? (fun o => o.primaryText == some (jsTrim st.input))
      (ch.sceneOptions st.currentScene) = some opt) :
    handleSend env st storage =
      sceneStage env addr cid st.currentScene
        (responseStage env opt
          (happinessStage addr cid opt (addMessage st "user" (optionContent opt)) storage).1).1
        (happinessStage addr cid opt (addMessage st "user" (optionContent opt)) storage).2
        (responseStage env opt
          (happinessStage addr cid opt (addMessage st "user" (optionContent opt)) storage).1).2.1
        (responseStage env opt
          (happinessStage addr cid opt (addMessage st "user" (optionContent opt)) storage).1).2.2 := by
  have hres : resolveCharacter env st = some ch := by
    unfold resolveCharacter
    rw [hsel]
    exact hch
  unfold handleSend
  simp only [hsel, haddr, hres]
  rw [if_neg (by simp [htrim, htrans])]
  simp only [hfind]

/-- C2 (counterexample to the claim as stated): with the token manager
uninitialized, a successful send at scene 5 shows the end popup yet calls
markChatCompleted on nothing and leaves hasAccess true. -/
theorem send_completion_needs_token_manager_cex :
    (handleSend { sampleEnv with tokenManagerInitialized := false }
        { sampleState with currentScene := 5 } []).state.showError = false ∧
    (handleSend { sampleEnv with tokenManagerInitialized := false }
        { sampleState with currentScene := 5 } []).state.showEndPopup = true ∧
    (handleSend { sampleEnv with tokenManagerInitialized := false }
        { sampleState with currentScene := 5 } []).completions = [] ∧
    (handleSend { sampleEnv with tokenManagerInitialized := false }
        { sampleState with currentScene := 5 } []).state.hasAccess = true := by
  decide

/-- C2 (amended): a successful send below scene 5 advances to exactly
currentScene + 1 and persists that value under the scene key; at scene 5 and
up no further scene is entered, the end popup is shown, the scene key is
removed, markChatCompleted is called exactly when the token manager is
initialized, and hasAccess drops when that call returns without throwing. -/
theorem send_scene_progression (env : Env) (st : ChatState) (storage : Storage)
    (cid addr : String) (ch : Character) (opt : ChatOption)
    (hsel : st.selectedCharacter = some cid) (haddr : env.address = some addr)
    (hch : env.characterOf cid = some ch)
    (htrim : jsTrim st.input ≠ "") (htrans : st.isTransitioning = false)
    (hfind : List.find? (fun o => o.primaryText == some (jsTrim st.input))
      (ch.sceneOptions st.currentScene) = some opt) :
    (st.currentScene < 5 →
      (settleTimers (handleSend env st storage).state
        (handleSend env st storage).timers).currentScene = st.currentScene + 1 ∧
      (handleSend env st storage).storage.get (sceneKey addr cid) =
        some (StorageVal.str (toString (st.currentScene + 1))) ∧
      (handleSend env st storage).completions = []) ∧
    (5 ≤ st.currentScene →
      (handleSend env st storage).state.currentScene = st.currentScene ∧
      (settleTimers (handleSend env st storage).state
        (handleSend env st storage).timers).currentScene = st.currentScene ∧
      (handleSend env st storage).completions =
        (if env.tokenManagerInitialized then [cid] else []) ∧
      (env.tokenManagerInitialized = true → env.markChatCompletedOk = true →
        (handleSend env st storage).state.hasAccess = false) ∧
      (handleSend env st storage).state.showEndPopup = true ∧
      (handleSend env st storage).storage.get (sceneKey addr cid) = none) := by
  rw [handleSend_success env st storage cid addr ch opt hsel haddr hch htrim htrans hfind]
  constructor
  · intro h5
    rw [sceneStage_low env addr cid st.currentScene _ _ _ _ h5]
    exact ⟨settle_append_setScene _ _ _ _, storage_get_set_self _ _ _, rfl⟩
  · intro h5
    obtain ⟨h1, h2, h3, h4, h5x, h6, _, _⟩ :=
      sceneStage_high env addr cid st.currentScene
        (responseStage env opt
          (happinessStage addr cid opt (addMessage st "user" (optionContent opt)) storage).1).1
        (happinessStage addr cid opt (addMessage st "user" (optionContent opt)) storage).2
        (responseStage env opt
          (happinessStage addr cid opt (addMessage st "user" (optionContent opt)) storage).1).2.1
        (responseStage env opt
          (happinessStage addr cid opt (addMessage st "user" (optionContent opt)) storage).1).2.2
        h5
    have hsc : (responseStage env opt
        (happinessStage addr cid opt (addMessage st "user" (optionContent opt))
          storage).1).1.currentScene = st.currentScene := by
      rw [(responseStage_state_fields env opt _).2.1]
      rw [(happinessStage_state_fields addr cid opt _ storage).1]
      rfl
    have hstate : (sceneStage env addr cid st.currentScene
        (responseStage env opt
          (happinessStage addr cid opt (addMessage st "user" (optionContent opt)) storage).1).1
        (happinessStage addr cid opt (addMessage st "user" (optionContent opt)) storage).2
        (responseStage env opt
          (happinessStage addr cid opt (addMessage st "user" (optionContent opt)) storage).1).2.1
        (responseStage env opt
          (happinessStage addr cid opt (addMessage st "user" (optionContent opt)) storage).1).2.2
        ).state.currentScene = st.currentScene := by
      rw [h1]
      exact hsc
    refine ⟨hstate, ?_, h4, h5x, h2, h6⟩
    rw [h3]
    rw [settle_clearError_currentScene _ _ (responseStage_timer_actions env opt _)]
    exact hstate

/-- Witness for the amended C2 at a concrete send in scene 1. -/
theorem send_scene_progression_witness :
    sampleState.selectedCharacter = some "mei" ∧
    sampleEnv.address = some "0xAB" ∧
    sampleEnv.characterOf "mei" = some sampleCharacter ∧
    jsTrim sampleState.input ≠ "" ∧
    sampleState.isTransitioning = false ∧
    List.find? (fun o => o.primaryText == some (jsTrim sampleState.input))
      (sampleCharacter.sceneOptions sampleState.currentScene) = some sampleOption ∧
    ((sampleState.currentScene < 5 →
      (settleTimers (handleSend sampleEnv sampleState []).state
        (handleSend sampleEnv sampleState []).timers).currentScene =
          sampleState.currentScene + 1 ∧
      (handleSend sampleEnv sampleState []).storage.get (sceneKey "0xAB" "mei") =
        some (StorageVal.str (toString (sampleState.currentScene + 1))) ∧
      (handleSend sampleEnv sampleState []).completions = []) ∧
    (5 ≤ sampleState.currentScene →
      (handleSend sampleEnv sampleState []).state.currentScene = sampleState.currentScene ∧
      (settleTimers (handleSend sampleEnv sampleState []).state
        (handleSend sampleEnv sampleState []).timers).currentScene = sampleState.currentScene ∧
      (handleSend sampleEnv sampleState []).completions =
        (if sampleEnv.tokenManagerInitialized then ["mei"] else []) ∧
      (sampleEnv.tokenManagerInitialized = true → sampleEnv.markChatCompletedOk = true →
        (handleSend sampleEnv sampleState []).state.hasAccess = false) ∧
      (handleSend sampleEnv sampleState []).state.showEndPopup = true ∧
      (handleSend sampleEnv sampleState []).storage.get (sceneKey "0xAB" "mei") = none)) :=
  ⟨rfl, rfl, by decide, by decide, rfl, by decide,
   send_scene_progression sampleEnv sampleState [] "mei" "0xAB" sampleCharacter sampleOption
     rfl rfl (by decide) (by decide) rfl (by decide)⟩

/-- C3 (counterexample to the claim as stated): at stored happiness 0 the
code falls back to 50 (JavaScript truthiness of the zero default), so a plus
10 option stores 60 where the claim predicts 10. -/
theorem happiness_zero_default_cex :
    (handleSend sampleEnv { sampleState with happiness := [("mei", 0)] } []).state.showError
      = false ∧
    (handleSend sampleEnv { sampleState with happiness := [("mei", 0)] } []).storage.get
      (happinessKey "0xAB" "mei") = some (StorageVal.str "60") ∧
    toString (claimStoredHappiness
      (happinessOf ({ sampleState with happiness := [("mei", 0)] } : ChatState).happiness "mei")
      10) = "10" ∧
    (handleSend sampleEnv { sampleState with happiness := [("mei", 0)] } []).storage.get
        (happinessKey "0xAB" "mei") ≠
      some (StorageVal.str (toString (claimStoredHappiness
        (happinessOf ({ sampleState with happiness := [("mei", 0)] } : ChatState).happiness "mei")
        10))) := by
  refine ⟨by decide, by decide, by decide, by decide⟩

/-- C3 (amended): every matched option carrying a numeric points value
updates the happiness of the character, in store and mirrored localStorage
alike, to the previous happiness (50 when absent or zero) plus the points,
clamped to 0..100. -/
theorem send_happiness_update (env : Env) (st : ChatState) (storage : Storage)
    (cid addr : String) (ch : Character) (opt : ChatOption) (p : Int)
    (hsel : st.selectedCharacter = some cid) (haddr : env.address = some addr)
    (hch : env.characterOf cid = some ch)
    (htrim : jsTrim st.input ≠ "") (htrans : st.isTransitioning = false)
    (hfind : List.find? (fun o => o.primaryText == some (jsTrim st.input))
      (ch.sceneOptions st.currentScene) = some opt)
    (hpts : opt.points = some p) :
    (handleSend env st storage).storage.get (happinessKey addr cid) =
      some (StorageVal.str
        (toString (min 100 (max 0 (jsHappinessDefault (happinessOf st.happiness cid) + p))))) ∧
    happinessOf (handleSend env st storage).state.happiness cid =
      some (min 100 (max 0 (jsHappinessDefault (happinessOf st.happiness cid) + p))) := by
  rw [handleSend_success env st storage cid addr ch opt hsel haddr hch htrim htrans hfind]
  by_cases h5 : st.currentScene < 5
  · rw [sceneStage_low env addr cid st.currentScene _ _ _ _ h5]
    constructor
    · show ((happinessStage addr cid opt (addMessage st "user" (optionContent opt))
          storage).2.set (sceneKey addr cid)
            (StorageVal.str (toString (st.currentScene + 1)))).get (happinessKey addr cid) = _
      rw [storage_get_set_ne _ _ (sceneKey_ne_happinessKey addr cid addr cid)]
      rw [(happinessStage_points addr cid opt _ storage p hpts).2]
      rw [storage_get_set_self]
      rfl
    · show happinessOf (responseStage env opt
          (happinessStage addr cid opt (addMessage st "user" (optionContent opt))
            storage).1).1.happiness cid = _
      rw [(responseStage_state_fields env opt _).1]
      rw [(happinessStage_points addr cid opt _ storage p hpts).1]
      exact happinessOf_storeUpdate st.happiness cid p
  · obtain ⟨_, _, _, _, _, _, h7, h8⟩ :=
      sceneStage_high env addr cid st.currentScene
        (responseStage env opt
          (happinessStage addr cid opt (addMessage st "user" (optionContent opt)) storage).1).1
        (happinessStage addr cid opt (addMessage st "user" (optionContent opt)) storage).2
        (responseStage env opt
          (happinessStage addr cid opt (addMessage st "user" (optionContent opt)) storage).1).2.1
        (responseStage env opt
          (happinessStage addr cid opt (addMessage st "user" (optionContent opt)) storage).1).2.2
        (by omega)
    constructor
    · rw [h7 addr cid]
      rw [(happinessStage_points addr cid opt _ storage p hpts).2]
      rw [storage_get_set_self]
      rfl
    · rw [h8]
      rw [(responseStage_state_fields env opt _).1]
      rw [(happinessStage_points addr cid opt _ storage p hpts).1]
      exact happinessOf_storeUpdate st.happiness cid p

/-- Witness for the amended C3 at a concrete send with a plus 10 option. -/
theorem send_happiness_update_witness :
    sampleState.selectedCharacter = some "mei" ∧
    sampleEnv.address = some "0xAB" ∧
    sampleEnv.characterOf "mei" = some sampleCharacter ∧
    jsTrim sampleState.input ≠ "" ∧
    sampleState.isTransitioning = false ∧
    List.find? (fun o => o.primaryText == some (jsTrim sampleState.input))
      (sampleCharacter.sceneOptions sampleState.currentScene) = some sampleOption ∧
    sampleOption.points = some 10 ∧
    ((handleSend sampleEnv sampleState []).storage.get (happinessKey "0xAB" "mei") =
      some (StorageVal.str
        (toString
          (min 100 (max 0 (jsHappinessDefault (happinessOf sampleState.happiness "mei") + 10))))) ∧
    happinessOf (handleSend sampleEnv sampleState []).state.happiness "mei" =
      some (min 100 (max 0 (jsHappinessDefault (happinessOf sampleState.happiness "mei") + 10)))) :=
  ⟨rfl, rfl, by decide, by decide, rfl, by decide, rfl,
   send_happiness_update sampleEnv sampleState [] "mei" "0xAB" sampleCharacter sampleOption 10
     rfl rfl (by decide) (by decide) rfl (by decide) rfl⟩

/-- C10: a send whose input fails validation or matches no current-scene
option shows an error banner and leaves the chat alone: no message, no
happiness change, no scene advance, no storage write, no token manager call,
no TTS request. -/
theorem invalid_input_leaves_chat_unchanged (env : Env) (st : ChatState) (storage : Storage)
    (hfail : jsTrim st.input = "" ∨ st.selectedCharacter = none ∨ env.address = none ∨
      resolveCharacter env st = none ∨ st.isTransitioning = true ∨
      (∀ ch, resolveCharacter env st = some ch →
        List.find? (fun o => o.primaryText == some (jsTrim st.input))
          (ch.sceneOptions st.currentScene) = none)) :
    (handleSend env st storage).state.messages = st.messages ∧
    (handleSend env st storage).state.happiness = st.happiness ∧
    (handleSend env st storage).state.currentScene = st.currentScene ∧
    (settleTimers (handleSend env st storage).state
      (handleSend env st storage).timers).currentScene = st.currentScene ∧
    (handleSend env st storage).storage = storage ∧
    (handleSend env st storage).completions = [] ∧
    (handleSend env st storage).ttsRequests = [] ∧
    (handleSend env st storage).state.showError = true ∧
    (handleSend env st storage).state.error.isSome = true := by
  have key : ∃ msg, handleSend env st storage = sendError st storage msg := by
    cases hsel : st.selectedCharacter with
    | none => exact ⟨_, by unfold handleSend; rw [hsel]⟩
    | some cid =>
      cases haddr : env.address with
      | none => exact ⟨_, by unfold handleSend; rw [hsel, haddr]⟩
      | some addr =>
        cases hres : resolveCharacter env st with
        | none => exact ⟨_, by unfold handleSend; rw [hsel, haddr, hres]⟩
        | some ch =>
          by_cases hguard : (jsTrim st.input == "" || st.isTransitioning) = true
          · refine ⟨"Invalid input or connection state", ?_⟩
            unfold handleSend
            simp only [hsel, haddr, hres]
            rw [if_pos hguard]
          · have hfind : List.find? (fun o => o.primaryText == some (jsTrim st.input))
                (ch.sceneOptions st.currentScene) = none := by
              rcases hfail with h | h | h | h | h | h
              · exact absurd (by simp [h]) hguard
              · rw [h] at hsel
                cases hsel
              · rw [h] at haddr
                cases haddr
              · rw [h] at hres
                cases hres
              · exact absurd (by simp [h]) hguard
              · exact h ch hres
            refine ⟨"Please select a valid response option", ?_⟩
            unfold handleSend
            simp only [hsel, haddr, hres]
            rw [if_neg hguard]
            simp only [hfind]
  obtain ⟨msg, hmsg⟩ := key
  rw [hmsg]
  unfold sendError showErrorMessageS
  exact ⟨rfl, rfl, rfl, rfl, rfl, rfl, rfl, rfl, rfl⟩

/-- Witness for C10 at a send with empty input. -/
theorem invalid_input_leaves_chat_unchanged_witness :
    (jsTrim ({ sampleState with input := "" } : ChatState).input = "" ∨
      ({ sampleState with input := "" } : ChatState).selectedCharacter = none ∨
      sampleEnv.address = none ∨
      resolveCharacter sampleEnv { sampleState with input := "" } = none ∨
      ({ sampleState with input := "" } : ChatState).isTransitioning = true ∨
      (∀ ch, resolveCharacter sampleEnv { sampleState with input := "" } = some ch →
        List.find? (fun o => o.primaryText ==
            some (jsTrim ({ sampleState with input := "" } : ChatState).input))
          (ch.sceneOptions ({ sampleState with input := "" } : ChatState).currentScene) =
          none)) ∧
    ((handleSend sampleEnv { sampleState with input := "" } []).state.messages =
      ({ sampleState with input := "" } : ChatState).messages ∧
    (handleSend sampleEnv { sampleState with input := "" } []).state.happiness =
      ({ sampleState with input := "" } : ChatState).happiness ∧
    (handleSend sampleEnv { sampleState with input := "" } []).state.currentScene =
      ({ sampleState with input := "" } : ChatState).currentScene ∧
    (settleTimers (handleSend sampleEnv { sampleState with input := "" } []).state
      (handleSend sampleEnv { sampleState with input := "" } []).timers).currentScene =
      ({ sampleState with input := "" } : ChatState).currentScene ∧
    (handleSend sampleEnv { sampleState with input := "" } []).storage = [] ∧
    (handleSend sampleEnv { sampleState with input := "" } []).completions = [] ∧
    (handleSend sampleEnv { sampleState with input := "" } []).ttsRequests = [] ∧
    (handleSend sampleEnv { sampleState with input := "" } []).state.showError = true ∧
    (handleSend sampleEnv { sampleState with input := "" } []).state.error.isSome = true) :=
  ⟨Or.inl (by decide),
   invalid_input_leaves_chat_unchanged sampleEnv { sampleState with input := "" } []
     (Or.inl (by decide))⟩

end Lingobabe
